import Mathlib

/-!
Verification of the walter_spl_meter firmware sketch.

The development shallowly embeds the two parts of the repository:

* `DecibelMeter` — the I2C register-access driver (src/DecibelMeter.cpp).
  Two-wire bus traffic is modelled as a trace of `WireEv` events; the
  sensor device is modelled as a register file `regs : Nat → Nat` whose
  byte at address `a` is `regs a % 256`.  Each driver operation is a pure
  function returning its result together with the exact bus trace it
  produces, mirroring the C++ statement order.

* the main sketch (walter_spl_meter.ino) — `setup` and `loop` are
  modelled as pure functions over an environment that chooses the outcome
  of every external-library call (modem, display, sensor values), the
  20-byte global `dataBuf` being a function `Nat → Nat` holding byte
  values.  Each run returns the new buffer and the trace of `Act` actions
  performed, in source order.  External library calls (WalterModem,
  Adafruit_SSD1306) appear as single events carrying their arguments and
  outcome; serial printf calls appear as `serialPrint` events carrying
  the format string.  The cell-information RSRP field, a C `float`, is
  modelled as a rational number: the only operation applied to it,
  multiplication by -1 followed by a cast to `uint8_t`, is exact sign
  negation followed by truncation toward zero, which the rational model
  reproduces exactly for in-range values.
-/

namespace SplMeter

/-! ## DecibelMeter driver (src/DecibelMeter.hpp, src/DecibelMeter.cpp) -/

def DBM_ADDR : Nat := 0x48

def DBM_REG_VERSION : Nat := 0x00
def DBM_REG_ID3 : Nat := 0x01
def DBM_REG_ID2 : Nat := 0x02
def DBM_REG_ID1 : Nat := 0x03
def DBM_REG_ID0 : Nat := 0x04
def DBM_REG_SCRATCH : Nat := 0x05
def DBM_REG_CONTROL : Nat := 0x06
def DBM_REG_TAVG_HIGH : Nat := 0x07
def DBM_REG_TAVG_LOW : Nat := 0x08
def DBM_REG_RESET : Nat := 0x09
def DBM_REG_DECIBEL : Nat := 0x0A
def DBM_REG_MIN : Nat := 0x0B
def DBM_REG_MAX : Nat := 0x0C
def DBM_REG_THR_MIN : Nat := 0x0D
def DBM_REG_THR_MAX : Nat := 0x0E

/-- One event on the two-wire bus, as issued by the driver through the
`TwoWire` API.  `read b` records that `_wire.read()` returned the byte
`b` from the device. -/
inductive WireEv where
  | wireBegin (sda scl freq : Nat)
  | beginTransmission (addr : Nat)
  | write (b : Nat)
  | endTransmission
  | requestFrom (addr : Nat) (n : Nat)
  | delayMs (ms : Nat)
  | read (b : Nat)
deriving DecidableEq, Repr

namespace DecibelMeter

/-- DecibelMeter::begin — calls `_wire.begin(_sda, _scl, _frequency)` and
returns `true` unconditionally. -/
def begin (sda scl frequency : Nat) : Bool × List WireEv :=
  (true, [WireEv.wireBegin sda scl frequency])

/-- DecibelMeter::readRegister — beginTransmission(DBM_ADDR), write the
register address, endTransmission, requestFrom(DBM_ADDR, 1), delay(10),
read one byte.  The byte delivered by the device is its register content
truncated to 8 bits. -/
def readRegister (regs : Nat → Nat) (regaddr : Nat) : Nat × List WireEv :=
  let v := regs regaddr % 256
  (v, [WireEv.beginTransmission DBM_ADDR, WireEv.write (regaddr % 256),
       WireEv.endTransmission, WireEv.requestFrom DBM_ADDR 1,
       WireEv.delayMs 10, WireEv.read v])

/-- DecibelMeter::writeRegister — beginTransmission(DBM_ADDR), write the
register address, write the value, endTransmission. -/
def writeRegister (regaddr value : Nat) : List WireEv :=
  [WireEv.beginTransmission DBM_ADDR, WireEv.write (regaddr % 256),
   WireEv.write (value % 256), WireEv.endTransmission]

/-- DecibelMeter::getVersion — readRegister(DBM_REG_VERSION). -/
def getVersion (regs : Nat → Nat) : Nat × List WireEv :=
  readRegister regs DBM_REG_VERSION

/-- DecibelMeter::getID — four readRegister calls filling id[0] .. id[3]
from DBM_REG_ID3, DBM_REG_ID2, DBM_REG_ID1, DBM_REG_ID0 in that order. -/
def getID (regs : Nat → Nat) : List Nat × List WireEv :=
  let r0 := readRegister regs DBM_REG_ID3
  let r1 := readRegister regs DBM_REG_ID2
  let r2 := readRegister regs DBM_REG_ID1
  let r3 := readRegister regs DBM_REG_ID0
  ([r0.1, r1.1, r2.1, r3.1], r0.2 ++ r1.2 ++ r2.2 ++ r3.2)

/-- DecibelMeter::readDecibel — readRegister(DBM_REG_DECIBEL). -/
def readDecibel (regs : Nat → Nat) : Nat × List WireEv :=
  readRegister regs DBM_REG_DECIBEL

/-- DecibelMeter::readMinDecibel — readRegister(DBM_REG_MIN). -/
def readMinDecibel (regs : Nat → Nat) : Nat × List WireEv :=
  readRegister regs DBM_REG_MIN

/-- DecibelMeter::readMaxDecibel — readRegister(DBM_REG_MAX). -/
def readMaxDecibel (regs : Nat → Nat) : Nat × List WireEv :=
  readRegister regs DBM_REG_MAX

/-- DecibelMeter::setAveragingInterval — splits the 16-bit interval into
high and low bytes and writes them to DBM_REG_TAVG_HIGH then
DBM_REG_TAVG_LOW.  The argument is a C `uint16_t`, so callers always
pass a value below 65536. -/
def setAveragingInterval (intervalMs : Nat) : List WireEv :=
  let highByte := (intervalMs >>> 8) &&& 0xFF
  let lowByte := intervalMs &&& 0xFF
  writeRegister DBM_REG_TAVG_HIGH highByte ++ writeRegister DBM_REG_TAVG_LOW lowByte

/-- DecibelMeter::resetMinMax — writeRegister(DBM_REG_RESET, 0b00000010). -/
def resetMinMax : List WireEv :=
  writeRegister DBM_REG_RESET 2

end DecibelMeter

/-- Masking with 0xFF is reduction modulo 256. -/
theorem land_255_eq_mod (n : Nat) : n &&& 0xFF = n % 256 := by
  have h := Nat.and_pow_two_sub_one_eq_mod n 8
  norm_num at h
  exact h

/-- The exact bus trace of one register read. -/
def rrTrace (regs : Nat → Nat) (regaddr : Nat) : List WireEv :=
  [WireEv.beginTransmission DBM_ADDR, WireEv.write (regaddr % 256),
   WireEv.endTransmission, WireEv.requestFrom DBM_ADDR 1,
   WireEv.delayMs 10, WireEv.read (regs regaddr % 256)]

/-- C3: every DecibelMeter register read used by getVersion, getID,
readDecibel, readMinDecibel and readMaxDecibel performs exactly the
sequence write-address-to-DBM_ADDR, request one byte, delay, read one
byte — with no retry and no error check — and nothing else: each of the
five operations produces exactly the concatenation of such fixed
six-event sequences for its registers. -/
theorem readRegister_bus_sequence (regs : Nat → Nat) :
    (∀ regaddr, (DecibelMeter.readRegister regs regaddr).2 = rrTrace regs regaddr) ∧
    (DecibelMeter.getVersion regs).2 = rrTrace regs DBM_REG_VERSION ∧
    (DecibelMeter.getID regs).2 =
      rrTrace regs DBM_REG_ID3 ++ rrTrace regs DBM_REG_ID2 ++
      rrTrace regs DBM_REG_ID1 ++ rrTrace regs DBM_REG_ID0 ∧
    (DecibelMeter.readDecibel regs).2 = rrTrace regs DBM_REG_DECIBEL ∧
    (DecibelMeter.readMinDecibel regs).2 = rrTrace regs DBM_REG_MIN ∧
    (DecibelMeter.readMaxDecibel regs).2 = rrTrace regs DBM_REG_MAX := by
  refine ⟨fun _ => rfl, rfl, ?_, rfl, rfl, rfl⟩
  simp [DecibelMeter.getID, DecibelMeter.readRegister, rrTrace]

/-- C5: each DecibelMeter read operation returns exactly the byte of its
corresponding device register: getVersion from 0x00, readDecibel from
0x0A, readMinDecibel from 0x0B, readMaxDecibel from 0x0C, and getID
fills id[0] .. id[3] with the bytes of registers 0x01 .. 0x04 in that
order. -/
theorem read_ops_register_map (regs : Nat → Nat) :
    (DecibelMeter.getVersion regs).1 = regs 0x00 % 256 ∧
    (DecibelMeter.readDecibel regs).1 = regs 0x0A % 256 ∧
    (DecibelMeter.readMinDecibel regs).1 = regs 0x0B % 256 ∧
    (DecibelMeter.readMaxDecibel regs).1 = regs 0x0C % 256 ∧
    (DecibelMeter.getID regs).1 =
      [regs 0x01 % 256, regs 0x02 % 256, regs 0x03 % 256, regs 0x04 % 256] :=
  ⟨rfl, rfl, rfl, rfl, rfl⟩

/-- C6: for every 16-bit interval, setAveragingInterval performs exactly
two register writes — the byte `(intervalMs >>> 8) &&& 0xFF` to
DBM_REG_TAVG_HIGH followed by the byte `intervalMs &&& 0xFF` to
DBM_REG_TAVG_LOW — and the two bytes reassemble to the interval:
highByte * 256 + lowByte = intervalMs. -/
theorem setAveragingInterval_split (intervalMs : Nat) (h : intervalMs < 65536) :
    DecibelMeter.setAveragingInterval intervalMs =
      DecibelMeter.writeRegister DBM_REG_TAVG_HIGH ((intervalMs >>> 8) &&& 0xFF) ++
      DecibelMeter.writeRegister DBM_REG_TAVG_LOW (intervalMs &&& 0xFF) ∧
    ((intervalMs >>> 8) &&& 0xFF) * 256 + (intervalMs &&& 0xFF) = intervalMs := by
  refine ⟨rfl, ?_⟩
  rw [land_255_eq_mod, land_255_eq_mod, Nat.shiftRight_eq_div_pow]
  norm_num
  omega

/-- Witness for C6 at the concrete interval 1000 ms used by the sketch. -/
theorem setAveragingInterval_split_witness :
    DecibelMeter.setAveragingInterval 1000 =
      DecibelMeter.writeRegister DBM_REG_TAVG_HIGH ((1000 >>> 8) &&& 0xFF) ++
      DecibelMeter.writeRegister DBM_REG_TAVG_LOW (1000 &&& 0xFF) ∧
    ((1000 >>> 8) &&& 0xFF) * 256 + (1000 &&& 0xFF) = 1000 :=
  setAveragingInterval_split 1000 (by decide)

/-- C7: resetMinMax performs exactly one register write — the value
0b00000010 to DBM_REG_RESET (0x09) — and nothing else: no other
register is touched and nothing is read. -/
theorem resetMinMax_single_write :
    DecibelMeter.resetMinMax =
      [WireEv.beginTransmission DBM_ADDR, WireEv.write (DBM_REG_RESET % 256),
       WireEv.write (2 % 256), WireEv.endTransmission] ∧
    DBM_REG_RESET = 0x09 := ⟨rfl, rfl⟩

/-- C10: DecibelMeter::begin returns true for every pin and frequency
configuration, so a caller can never observe a failed bus
initialization through its result. -/
theorem begin_always_true (sda scl frequency : Nat) :
    (DecibelMeter.begin sda scl frequency).1 = true := rfl

/-! ## Main sketch (src/unnamed/part_000, walter_spl_meter.ino) -/

def SERV_ADDR : String := "64.225.64.140"

def SERV_PORT : Nat := 1999

def PACKET_SIZE : Nat := 20

/-- Stand-in numeral for the external enum constant
WALTER_MODEM_RAT_LTEM; only its equality with the queried RAT value
matters to the sketch. -/
def WALTER_MODEM_RAT_LTEM : Nat := 0

def RADIO_TECHNOLOGY : Nat := WALTER_MODEM_RAT_LTEM

/-- One external action of the sketch, in source order.  Modem and
display library calls carry their arguments and, where the sketch
inspects it, their boolean outcome; `serialPrint` carries the format
string of the corresponding Serial print call; `getNetworkRegState`
carries whether the returned state is REGISTERED_HOME or
REGISTERED_ROAMING. -/
inductive Act where
  | serialBegin (baud : Nat)
  | serialPrint (s : String)
  | pinModeOut (pin : Nat)
  | digitalWrite (pin : Nat) (high : Bool)
  | delayMs (ms : Nat)
  | wire1Begin (sda scl freq : Nat)
  | screenBegin (ok : Bool)
  | showStatus (s : String)
  | showSPL (db dbmin dbmax : Nat)
  | dbBegin
  | dbGetVersion (v : Nat)
  | dbSetAveragingInterval (ms : Nat)
  | dbResetMinMax
  | dbReadDecibel (v : Nat)
  | dbReadMin (v : Nat)
  | dbReadMax (v : Nat)
  | readMac
  | modemBegin (ok : Bool)
  | getRAT (ok : Bool)
  | setRAT (rat : Nat)
  | createPDPContext (ok : Bool)
  | setOpState (ok : Bool)
  | setNetworkSelectionMode (ok : Bool)
  | getNetworkRegState (registered : Bool)
  | getCellInformation (ok : Bool)
  | createSocket (ok : Bool)
  | configSocket (ok : Bool)
  | connectSocket (ip : String) (port localPort : Nat) (ok : Bool)
  | socketSend (data : List Nat) (len : Nat) (ok : Bool)
  | closeSocket (ok : Bool)
  | restart
deriving DecidableEq, Repr

/-- The global 20-byte `dataBuf`, indexed by byte position. -/
def Buf : Type := Nat → Nat

/-- Cell information as returned by the modem library; `rsrp` and
`rsrq` are C floats, modelled as rationals. -/
structure CellInfo where
  band : Nat
  netName : String
  cc : Nat
  nc : Nat
  tac : Nat
  cid : Nat
  rsrp : ℚ
  rsrq : ℚ

/-- Environment for one `setup` run: outcomes and values delivered by
the external libraries, in the order the sketch consumes them.
`screenFailures` counts failed screen.begin attempts before the first
success; `regPolls` counts network registration polls that return an
unregistered state before registration succeeds. -/
structure SetupEnv where
  screenFailures : Nat
  version : Nat
  mac : Nat → Nat
  modemBeginOk : Bool
  ratResult : Option Nat
  pdpOk : Bool
  opStateOk : Bool
  selModeOk : Bool
  regPolls : Nat

/-- Environment for one `loop` iteration: sensor register values and
modem call outcomes.  `cell1` and `cell2` are the results of the two
getCellInformation calls, `none` meaning the call reported failure. -/
structure LoopEnv where
  db : Nat
  dbmin : Nat
  dbmax : Nat
  cell1 : Option CellInfo
  cell2 : Option CellInfo
  createOk : Bool
  configOk : Bool
  connectOk : Bool
  sendOk : Bool
  closeOk : Bool

/-- Assignment `dataBuf[i] = v`: `uint8_t` storage truncates to 8 bits. -/
def setByte (buf : Buf) (i v : Nat) : Buf := Function.update buf i (v % 256)

/-- The C cast `(uint8_t) q` of a float value modelled as a rational:
truncation toward zero, then reduction to 8 bits. -/
def truncToByte (q : ℚ) : Nat := (if 0 ≤ q then ⌊q⌋ else ⌈q⌉).toNat % 256

/-- `esp_read_mac(dataBuf, ESP_MAC_WIFI_STA)`: fills bytes 0 .. 5 with
the MAC address. -/
def writeMac (buf : Buf) (mac : Nat → Nat) : Buf :=
  fun i => if i < 6 then mac i % 256 else buf i

/-- Lines 364 to 366: dataBuf[6] = db; dataBuf[7] = dbmin;
dataBuf[8] = dbmax. -/
def packSensor (buf : Buf) (db dbmin dbmax : Nat) : Buf :=
  setByte (setByte (setByte buf 6 db) 7 dbmin) 8 dbmax

/-- Lines 381 to 391 (and identically 423 to 433): store cc, nc, tac
(two bytes each, high byte first), the 32-bit cell id (four bytes, high
byte first) and the negated RSRP into dataBuf[9] .. dataBuf[19]. -/
def packCellInfo (buf : Buf) (ci : CellInfo) : Buf :=
  setByte (setByte (setByte (setByte (setByte (setByte (setByte (setByte
    (setByte (setByte (setByte buf
    9 (ci.cc >>> 8))
    10 (ci.cc &&& 0xFF))
    11 (ci.nc >>> 8))
    12 (ci.nc &&& 0xFF))
    13 (ci.tac >>> 8))
    14 (ci.tac &&& 0xFF))
    15 ((ci.cid >>> 24) &&& 0xFF))
    16 ((ci.cid >>> 16) &&& 0xFF))
    17 ((ci.cid >>> 8) &&& 0xFF))
    18 (ci.cid &&& 0xFF))
    19 (truncToByte (ci.rsrp * -1))

/-- One getCellInformation call and its handling: on failure only a log
line, on success three log lines and the packet update. -/
def cellQueryStep (c : Option CellInfo) (buf : Buf) : Buf × List Act :=
  match c with
  | none =>
      (buf, [Act.getCellInformation false,
             Act.serialPrint "Could not request cell information"])
  | some ci =>
      (packCellInfo buf ci,
       [Act.getCellInformation true,
        Act.serialPrint "Connected on band %u using operator %s (%u%02u)",
        Act.serialPrint " and cell ID %u.\r\n",
        Act.serialPrint "Signal strength: RSRP: %.2f, RSRQ: %.2f.\r\n"])

/-- The 20 bytes of the buffer handed to socketSend. -/
def bufList (buf : Buf) : List Nat := (List.range PACKET_SIZE).map buf

/-- socketConnect — createSocket, configSocket, connectSocket, each
aborting with `false` on failure. -/
def socketConnect (ip : String) (port : Nat) (createOk configOk connectOk : Bool) :
    Bool × List Act :=
  if !createOk then
    (false, [Act.createSocket false,
             Act.serialPrint "Could not create a new socket\r\n"])
  else if !configOk then
    (false, [Act.createSocket true, Act.configSocket false,
             Act.serialPrint "Could not configure the socket\r\n"])
  else if connectOk then
    (true, [Act.createSocket true, Act.configSocket true,
            Act.connectSocket ip port port true,
            Act.serialPrint "Connected to UDP server %s:%d\r\n"])
  else
    (false, [Act.createSocket true, Act.configSocket true,
             Act.connectSocket ip port port false,
             Act.serialPrint "Could not connect UDP socket\r\n"])

/-- The registration polling loop of lteConnect: one getNetworkRegState
per iteration, a 100 ms delay between unregistered polls. -/
def pollTrace : Nat → List Act
  | 0 => [Act.getNetworkRegState true]
  | n + 1 => Act.getNetworkRegState false :: Act.delayMs 100 :: pollTrace n

/-- lteConnect — setOpState, setNetworkSelectionMode, then block
polling until registered.  Returns false only when one of the two
modem commands fails; the polling loop never fails. -/
def lteConnect (opStateOk selModeOk : Bool) (regPolls : Nat) : Bool × List Act :=
  if !opStateOk then
    (false, [Act.setOpState false,
             Act.serialPrint "Could not set operational state to FULL\r\n"])
  else if !selModeOk then
    (false, [Act.setOpState true, Act.setNetworkSelectionMode false,
             Act.serialPrint "Could not set the network selection mode to automatic\r\n"])
  else
    (true, Act.setOpState true :: Act.setNetworkSelectionMode true ::
           (pollTrace regPolls ++ [Act.serialPrint "Connected to the network\r\n"]))

/-- The screen initialization loop: while(!screen.begin) log and wait
one second. -/
def screenTrace : Nat → List Act
  | 0 => [Act.screenBegin true]
  | n + 1 => Act.screenBegin false :: Act.serialPrint "SSD1306 allocation failed" ::
             Act.delayMs 1000 :: screenTrace n

/-- The RAT query block: on success, switch only when the reported RAT
differs from RADIO_TECHNOLOGY (the setRAT result is not checked); on
failure, only a log line. -/
def ratTrace : Option Nat → List Act
  | some r =>
      Act.getRAT true ::
      (if r ≠ RADIO_TECHNOLOGY then
        [Act.setRAT RADIO_TECHNOLOGY, Act.serialPrint "Switched modem radio technology"]
      else [])
  | none => [Act.getRAT false,
             Act.serialPrint "Could not retrieve radio access technology"]

/-- The setup function of the sketch: boot prints, pin setup, screen
initialization loop, decibel meter configuration, MAC read into
dataBuf[0..5], modem init, RAT query, PDP context, LTE attach.  Modem
init, PDP context and LTE attach failures end in delay(1000) and
ESP.restart(). -/
def setupRun (env : SetupEnv) (buf : Buf) : Buf × List Act :=
  let pre : List Act :=
    [Act.serialBegin 115200, Act.delayMs 5000,
     Act.serialPrint "Sound Pressure Level sensor v0.0.2\r\n",
     Act.pinModeOut 8, Act.pinModeOut 18,
     Act.digitalWrite 8 false, Act.digitalWrite 18 true,
     Act.pinModeOut 0, Act.digitalWrite 0 false, Act.delayMs 50,
     Act.wire1Begin 16 17 400000] ++
    screenTrace env.screenFailures ++
    [Act.showStatus "Booting SPL v0.0.2", Act.delayMs 1000,
     Act.dbBegin, Act.dbGetVersion (env.version % 256),
     Act.serialPrint "Decibel meter version: 0x%02X\n",
     Act.dbSetAveragingInterval 1000, Act.dbResetMinMax,
     Act.readMac,
     Act.serialPrint "Walter\x27s MAC is: %02X:%02X:%02X:%02X:%02X:%02X\r\n",
     Act.showStatus "Starting modem..."]
  let buf := writeMac buf env.mac
  if !env.modemBeginOk then
    (buf, pre ++ [Act.modemBegin false,
                  Act.serialPrint "Modem initialization ERROR\r\n",
                  Act.delayMs 1000, Act.restart])
  else
    let pre := pre ++ [Act.modemBegin true,
                       Act.serialPrint "Modem initialization OK\r\n"] ++
               ratTrace env.ratResult
    if !env.pdpOk then
      (buf, pre ++ [Act.createPDPContext false,
                    Act.serialPrint "Could not create PDP context",
                    Act.delayMs 1000, Act.restart])
    else
      let pre := pre ++ [Act.createPDPContext true, Act.showStatus "Connecting..."]
      let lc := lteConnect env.opStateOk env.selModeOk env.regPolls
      if !lc.1 then
        (buf, pre ++ lc.2 ++ [Act.serialPrint "Could not connect to the LTE network\r\n",
                              Act.delayMs 1000, Act.restart])
      else
        (buf, pre ++ lc.2)

/-- One iteration of the loop function of the sketch: sensor reads,
status display, min/max reset, packet construction, first cell query,
socket connect, send, 5 s delay, second cell query, socket close, SPL
display, 60 s sleep.  Socket and send failures end in delay(1000) and
ESP.restart(); cell query failures are only logged. -/
def loopRun (env : LoopEnv) (buf : Buf) : Buf × List Act :=
  let db := env.db % 256
  let dbmin := env.dbmin % 256
  let dbmax := env.dbmax % 256
  let pre : List Act :=
    [Act.dbReadDecibel db, Act.dbReadMin dbmin, Act.dbReadMax dbmax,
     Act.serialPrint "dB = %03d [MIN: %03d, MAX: %03d]\n",
     Act.showStatus "Transmitting...",
     Act.dbResetMinMax]
  let buf := packSensor buf db dbmin dbmax
  let c1 := cellQueryStep env.cell1 buf
  let buf := c1.1
  let pre := pre ++ c1.2
  let sc := socketConnect SERV_ADDR SERV_PORT env.createOk env.configOk env.connectOk
  if !sc.1 then
    (buf, pre ++ sc.2 ++ [Act.serialPrint "Could not connect to UDP server socket\r\n",
                          Act.delayMs 1000, Act.restart])
  else
    let pre := pre ++ sc.2
    if !env.sendOk then
      (buf, pre ++ [Act.socketSend (bufList buf) PACKET_SIZE false,
                    Act.serialPrint "Could not transmit data\r\n",
                    Act.delayMs 1000, Act.restart])
    else
      let pre := pre ++ [Act.socketSend (bufList buf) PACKET_SIZE true, Act.delayMs 5000]
      let c2 := cellQueryStep env.cell2 buf
      let buf := c2.1
      let pre := pre ++ c2.2
      if !env.closeOk then
        (buf, pre ++ [Act.closeSocket false,
                      Act.serialPrint "Could not close the socket\r\n",
                      Act.delayMs 1000, Act.restart])
      else
        (buf, pre ++ [Act.closeSocket true, Act.showSPL db dbmin dbmax,
                      Act.delayMs 60000])

/-- The buffer handed to socketSend always holds PACKET_SIZE bytes. -/
theorem bufList_length (buf : Buf) : (bufList buf).length = 20 := by
  simp [bufList, PACKET_SIZE]

/-- C2: every socketSend performed by a loop iteration sends the fixed
20-byte buffer with length PACKET_SIZE = 20 — never more or fewer
bytes. -/
theorem socketSend_fixed_size (env : LoopEnv) (buf : Buf) (d : List Nat) (l : Nat)
    (ok : Bool) (h : Act.socketSend d l ok ∈ (loopRun env buf).2) :
    l = PACKET_SIZE ∧ l = 20 ∧ d.length = 20 := by
  obtain ⟨db, dbmin, dbmax, c1, c2, cr, cf, cn, sd, cl⟩ := env
  cases c1 <;> cases c2 <;> cases cr <;> cases cf <;> cases cn <;>
    cases sd <;> cases cl <;>
    simp_all [loopRun, cellQueryStep, socketConnect, PACKET_SIZE, bufList]

/-- Witness for C2: a concrete iteration whose trace contains a
socketSend action, necessarily of length 20. -/
theorem socketSend_fixed_size_witness :
    20 = PACKET_SIZE ∧ 20 = 20 ∧
    (bufList (packSensor (fun _ => 0) 0 0 0)).length = 20 :=
  socketSend_fixed_size
    { db := 0, dbmin := 0, dbmax := 0, cell1 := none, cell2 := none,
      createOk := true, configOk := true, connectOk := true,
      sendOk := true, closeOk := true }
    (fun _ => 0) (bufList (packSensor (fun _ => 0) 0 0 0)) 20 true
    (by decide)

/-- The buffer returned by setup is always the input buffer with the
MAC written into bytes 0 .. 5, whichever failure branch is taken. -/
theorem setupRun_fst (senv : SetupEnv) (sbuf : Buf) :
    (setupRun senv sbuf).1 = writeMac sbuf senv.mac := by
  obtain ⟨sf, ver, mac, mb, rat, pdp, ops, sel, rp⟩ := senv
  cases mb <;> cases pdp <;> cases ops <;> cases sel <;> rfl

/-- The buffer returned by a loop iteration is the input buffer after
the sensor-byte writes and the first cell update, possibly followed by
the second cell update. -/
theorem loopRun_fst_cases (env : LoopEnv) (buf : Buf) :
    (loopRun env buf).1 =
      (cellQueryStep env.cell1
        (packSensor buf (env.db % 256) (env.dbmin % 256) (env.dbmax % 256))).1 ∨
    (loopRun env buf).1 =
      (cellQueryStep env.cell2
        ((cellQueryStep env.cell1
          (packSensor buf (env.db % 256) (env.dbmin % 256) (env.dbmax % 256))).1)).1 := by
  obtain ⟨db, dbmin, dbmax, c1, c2, cr, cf, cn, sd, cl⟩ := env
  cases cr <;> cases cf <;> cases cn <;> cases sd <;> cases cl <;>
    first
      | exact Or.inl rfl
      | exact Or.inr rfl

/-- When create, configure, connect and send all succeed, the final
buffer reflects both cell updates (in query order). -/
theorem loopRun_fst_of_sendOk (env : LoopEnv) (buf : Buf)
    (hcr : env.createOk = true) (hcf : env.configOk = true)
    (hcn : env.connectOk = true) (hsd : env.sendOk = true) :
    (loopRun env buf).1 =
      (cellQueryStep env.cell2
        ((cellQueryStep env.cell1
          (packSensor buf (env.db % 256) (env.dbmin % 256) (env.dbmax % 256))).1)).1 := by
  obtain ⟨db, dbmin, dbmax, c1, c2, cr, cf, cn, sd, cl⟩ := env
  subst hcr hcf hcn hsd
  cases cl <;> rfl

/-- packSensor only writes bytes 6, 7 and 8. -/
theorem packSensor_apply_of_ne (b : Buf) (x y z : Nat) (i : Nat)
    (h : i < 6 ∨ 9 ≤ i) : packSensor b x y z i = b i := by
  have h6 : i ≠ 6 := by omega
  have h7 : i ≠ 7 := by omega
  have h8 : i ≠ 8 := by omega
  simp [packSensor, setByte, Function.update_noteq h6, Function.update_noteq h7,
        Function.update_noteq h8]

/-- A cell query only writes bytes 9 .. 19. -/
theorem cellQueryStep_fst_apply_of_ne (c : Option CellInfo) (b : Buf) (i : Nat)
    (h : i < 9 ∨ 20 ≤ i) : (cellQueryStep c b).1 i = b i := by
  have h9 : i ≠ 9 := by omega
  have h10 : i ≠ 10 := by omega
  have h11 : i ≠ 11 := by omega
  have h12 : i ≠ 12 := by omega
  have h13 : i ≠ 13 := by omega
  have h14 : i ≠ 14 := by omega
  have h15 : i ≠ 15 := by omega
  have h16 : i ≠ 16 := by omega
  have h17 : i ≠ 17 := by omega
  have h18 : i ≠ 18 := by omega
  have h19 : i ≠ 19 := by omega
  cases c <;>
    simp [cellQueryStep, packCellInfo, setByte,
          Function.update_noteq h9, Function.update_noteq h10,
          Function.update_noteq h11, Function.update_noteq h12,
          Function.update_noteq h13, Function.update_noteq h14,
          Function.update_noteq h15, Function.update_noteq h16,
          Function.update_noteq h17, Function.update_noteq h18,
          Function.update_noteq h19]

/-- C9: the loop writes only bytes 6 .. 19 of dataBuf: every byte below
index 6 (and any index at 20 or above) is left exactly as it was, and
setup stores the MAC address bytes into positions 0 .. 5 — so every
transmitted packet begins with the same six MAC bytes. -/
theorem loop_preserves_mac_bytes (senv : SetupEnv) (env : LoopEnv)
    (sbuf buf : Buf) (i : Nat) (h : i < 6 ∨ 20 ≤ i) :
    (loopRun env buf).1 i = buf i ∧
    (i < 6 → (setupRun senv sbuf).1 i = senv.mac i % 256) := by
  constructor
  · have hs : i < 6 ∨ 9 ≤ i := by omega
    have hc : i < 9 ∨ 20 ≤ i := by omega
    rcases loopRun_fst_cases env buf with hb | hb <;> rw [hb]
    · rw [cellQueryStep_fst_apply_of_ne _ _ _ hc, packSensor_apply_of_ne _ _ _ _ _ hs]
    · rw [cellQueryStep_fst_apply_of_ne _ _ _ hc,
          cellQueryStep_fst_apply_of_ne _ _ _ hc,
          packSensor_apply_of_ne _ _ _ _ _ hs]
  · intro hi
    rw [setupRun_fst]
    simp [writeMac, hi]

/-- packCellInfo leaves bytes below 9 (and at 20 or above) unchanged. -/
theorem packCellInfo_apply_of_ne (b : Buf) (ci : CellInfo) (i : Nat)
    (h : i < 9 ∨ 20 ≤ i) : packCellInfo b ci i = b i := by
  have h9 : i ≠ 9 := by omega
  have h10 : i ≠ 10 := by omega
  have h11 : i ≠ 11 := by omega
  have h12 : i ≠ 12 := by omega
  have h13 : i ≠ 13 := by omega
  have h14 : i ≠ 14 := by omega
  have h15 : i ≠ 15 := by omega
  have h16 : i ≠ 16 := by omega
  have h17 : i ≠ 17 := by omega
  have h18 : i ≠ 18 := by omega
  have h19 : i ≠ 19 := by omega
  simp [packCellInfo, setByte,
        Function.update_noteq h9, Function.update_noteq h10,
        Function.update_noteq h11, Function.update_noteq h12,
        Function.update_noteq h13, Function.update_noteq h14,
        Function.update_noteq h15, Function.update_noteq h16,
        Function.update_noteq h17, Function.update_noteq h18,
        Function.update_noteq h19]

/-- The three sensor bytes written by packSensor. -/
theorem packSensor_bytes (b : Buf) (x y z : Nat) :
    packSensor b x y z 6 = x % 256 ∧ packSensor b x y z 7 = y % 256 ∧
    packSensor b x y z 8 = z % 256 := by
  refine ⟨?_, ?_, ?_⟩ <;> simp [packSensor, setByte, Function.update]

/-- The eleven cell bytes written by packCellInfo. -/
theorem packCellInfo_bytes (b : Buf) (ci : CellInfo) :
    packCellInfo b ci 9 = ((ci.cc >>> 8) % 256) ∧
    packCellInfo b ci 10 = ((ci.cc &&& 0xFF) % 256) ∧
    packCellInfo b ci 11 = ((ci.nc >>> 8) % 256) ∧
    packCellInfo b ci 12 = ((ci.nc &&& 0xFF) % 256) ∧
    packCellInfo b ci 13 = ((ci.tac >>> 8) % 256) ∧
    packCellInfo b ci 14 = ((ci.tac &&& 0xFF) % 256) ∧
    packCellInfo b ci 15 = (((ci.cid >>> 24) &&& 0xFF) % 256) ∧
    packCellInfo b ci 16 = (((ci.cid >>> 16) &&& 0xFF) % 256) ∧
    packCellInfo b ci 17 = (((ci.cid >>> 8) &&& 0xFF) % 256) ∧
    packCellInfo b ci 18 = ((ci.cid &&& 0xFF) % 256) ∧
    packCellInfo b ci 19 = (truncToByte (ci.rsrp * -1) % 256) := by
  refine ⟨?_, ?_, ?_, ?_, ?_, ?_, ?_, ?_, ?_, ?_, ?_⟩ <;>
    simp [packCellInfo, setByte, Function.update]

/-- High and low byte of a 16-bit value reassemble to the value. -/
theorem hiLo_reassemble (n : Nat) (h : n < 65536) :
    ((n >>> 8) % 256) * 256 + (n &&& 0xFF) % 256 = n := by
  rw [land_255_eq_mod, Nat.shiftRight_eq_div_pow]
  omega

/-- The four big-endian bytes of a 32-bit value reassemble to the
value. -/
theorem cid_reassemble (n : Nat) (h : n < 4294967296) :
    (((n >>> 24) &&& 0xFF) % 256) * 16777216 + (((n >>> 16) &&& 0xFF) % 256) * 65536 +
    (((n >>> 8) &&& 0xFF) % 256) * 256 + ((n &&& 0xFF) % 256) = n := by
  rw [land_255_eq_mod, land_255_eq_mod, land_255_eq_mod, land_255_eq_mod,
      Nat.shiftRight_eq_div_pow, Nat.shiftRight_eq_div_pow, Nat.shiftRight_eq_div_pow]
  omega

/-- For a nonnegative in-range value, the modelled float-to-uint8 cast
is the integer part. -/
theorem truncToByte_mod_eq (q : ℚ) (h0 : 0 ≤ q) (h1 : q < 256) :
    truncToByte q % 256 = (⌊q⌋).toNat := by
  have hf0 : (0 : ℤ) ≤ ⌊q⌋ := Int.floor_nonneg.mpr h0
  have hf1 : ⌊q⌋ < 256 := Int.floor_lt.mpr (by exact_mod_cast h1)
  have hlt : (⌊q⌋).toNat < 256 := by omega
  simp [truncToByte, if_pos h0, Nat.mod_eq_of_lt hlt]

/-- C8: the packet layout of a completed iteration — bytes 6, 7, 8 hold
the current, minimum and maximum decibel readings, and with `ci` the
cell information delivered by the last successful of the two cell
queries, bytes 9-10, 11-12, 13-14 hold cc, nc, tac in big-endian order,
bytes 15-18 hold the 32-bit cell id in big-endian order, and byte 19
holds the negated RSRP truncated to one byte. -/
theorem packet_field_layout (env : LoopEnv) (buf : Buf) (ci : CellInfo)
    (hcr : env.createOk = true) (hcf : env.configOk = true)
    (hcn : env.connectOk = true) (hsd : env.sendOk = true)
    (hci : env.cell2 = some ci ∨ (env.cell2 = none ∧ env.cell1 = some ci))
    (hdb : env.db < 256) (hmin : env.dbmin < 256) (hmax : env.dbmax < 256)
    (hcc : ci.cc < 65536) (hnc : ci.nc < 65536) (htac : ci.tac < 65536)
    (hcid : ci.cid < 4294967296)
    (hr0 : 0 ≤ ci.rsrp * -1) (hr1 : ci.rsrp * -1 < 256) :
    ((loopRun env buf).1) 6 = env.db ∧
    ((loopRun env buf).1) 7 = env.dbmin ∧
    ((loopRun env buf).1) 8 = env.dbmax ∧
    ((loopRun env buf).1) 9 * 256 + ((loopRun env buf).1) 10 = ci.cc ∧
    ((loopRun env buf).1) 11 * 256 + ((loopRun env buf).1) 12 = ci.nc ∧
    ((loopRun env buf).1) 13 * 256 + ((loopRun env buf).1) 14 = ci.tac ∧
    ((loopRun env buf).1) 15 * 16777216 + ((loopRun env buf).1) 16 * 65536 +
      ((loopRun env buf).1) 17 * 256 + ((loopRun env buf).1) 18 = ci.cid ∧
    ((loopRun env buf).1) 19 = (⌊ci.rsrp * -1⌋).toNat := by
  rw [loopRun_fst_of_sendOk env buf hcr hcf hcn hsd]
  obtain ⟨hs6, hs7, hs8⟩ :=
    packSensor_bytes buf (env.db % 256) (env.dbmin % 256) (env.dbmax % 256)
  have hfin :
      (cellQueryStep env.cell2
        ((cellQueryStep env.cell1
          (packSensor buf (env.db % 256) (env.dbmin % 256) (env.dbmax % 256))).1)).1 =
      packCellInfo
        ((cellQueryStep env.cell1
          (packSensor buf (env.db % 256) (env.dbmin % 256) (env.dbmax % 256))).1) ci ∨
      (env.cell1 = some ci ∧
       (cellQueryStep env.cell2
        ((cellQueryStep env.cell1
          (packSensor buf (env.db % 256) (env.dbmin % 256) (env.dbmax % 256))).1)).1 =
       packCellInfo
        (packSensor buf (env.db % 256) (env.dbmin % 256) (env.dbmax % 256)) ci) := by
    rcases hci with h2 | ⟨h2, h1⟩
    · exact Or.inl (by rw [h2]; rfl)
    · exact Or.inr ⟨h1, by rw [h2, h1]; rfl⟩
  have hmodb : env.db % 256 = env.db := Nat.mod_eq_of_lt hdb
  have hmodmin : env.dbmin % 256 = env.dbmin := Nat.mod_eq_of_lt hmin
  have hmodmax : env.dbmax % 256 = env.dbmax := Nat.mod_eq_of_lt hmax
  rcases hfin with hb | ⟨h1, hb⟩ <;> rw [hb] <;>
    obtain ⟨f9, f10, f11, f12, f13, f14, f15, f16, f17, f18, f19⟩ :=
      packCellInfo_bytes _ ci
  · refine ⟨?_, ?_, ?_, ?_, ?_, ?_, ?_, ?_⟩
    · rw [packCellInfo_apply_of_ne _ _ _ (by omega),
          cellQueryStep_fst_apply_of_ne _ _ _ (by omega), hs6]
      omega
    · rw [packCellInfo_apply_of_ne _ _ _ (by omega),
          cellQueryStep_fst_apply_of_ne _ _ _ (by omega), hs7]
      omega
    · rw [packCellInfo_apply_of_ne _ _ _ (by omega),
          cellQueryStep_fst_apply_of_ne _ _ _ (by omega), hs8]
      omega
    · rw [f9, f10]; exact hiLo_reassemble _ hcc
    · rw [f11, f12]; exact hiLo_reassemble _ hnc
    · rw [f13, f14]; exact hiLo_reassemble _ htac
    · rw [f15, f16, f17, f18]; exact cid_reassemble _ hcid
    · rw [f19]; exact truncToByte_mod_eq _ hr0 hr1
  · refine ⟨?_, ?_, ?_, ?_, ?_, ?_, ?_, ?_⟩
    · rw [packCellInfo_apply_of_ne _ _ _ (by omega), hs6]
      omega
    · rw [packCellInfo_apply_of_ne _ _ _ (by omega), hs7]
      omega
    · rw [packCellInfo_apply_of_ne _ _ _ (by omega), hs8]
      omega
    · rw [f9, f10]; exact hiLo_reassemble _ hcc
    · rw [f11, f12]; exact hiLo_reassemble _ hnc
    · rw [f13, f14]; exact hiLo_reassemble _ htac
    · rw [f15, f16, f17, f18]; exact cid_reassemble _ hcid
    · rw [f19]; exact truncToByte_mod_eq _ hr0 hr1

/-- Witness for C9 at index 0 with concrete environments. -/
theorem loop_preserves_mac_bytes_witness :
    (loopRun { db := 0, dbmin := 0, dbmax := 0, cell1 := none, cell2 := none,
               createOk := true, configOk := true, connectOk := true,
               sendOk := true, closeOk := true } (fun _ => 7)).1 0 = 7 ∧
    (0 < 6 →
      (setupRun { screenFailures := 0, version := 0, mac := fun _ => 0xAB,
                  modemBeginOk := true, ratResult := some 0, pdpOk := true,
                  opStateOk := true, selModeOk := true, regPolls := 0 }
        (fun _ => 7)).1 0 = 0xAB % 256) := by
  have h := loop_preserves_mac_bytes
    { screenFailures := 0, version := 0, mac := fun _ => 0xAB,
      modemBeginOk := true, ratResult := some 0, pdpOk := true,
      opStateOk := true, selModeOk := true, regPolls := 0 }
    { db := 0, dbmin := 0, dbmax := 0, cell1 := none, cell2 := none,
      createOk := true, configOk := true, connectOk := true,
      sendOk := true, closeOk := true }
    (fun _ => 7) (fun _ => 7) 0 (Or.inl (by decide))
  exact ⟨h.1, h.2⟩

/-- The last action of a trace. -/
def lastAct (tr : List Act) : Option Act := tr.reverse.head?

/-- C4: a completed loop iteration performs, in this relative order:
read the three sensor values, query cell information, create, configure
and connect the UDP socket, send the fixed packet, close the socket,
display the measured values, and sleep 60 seconds — the SPL display
update comes after the socket close, and the 60-second sleep is the
last action of the iteration. -/
theorem loop_iteration_order (env : LoopEnv) (buf : Buf)
    (hcr : env.createOk = true) (hcf : env.configOk = true)
    (hcn : env.connectOk = true) (hsd : env.sendOk = true)
    (hcl : env.closeOk = true) :
    ∃ d : List Nat,
      List.Sublist
        [Act.dbReadDecibel (env.db % 256), Act.dbReadMin (env.dbmin % 256),
         Act.dbReadMax (env.dbmax % 256),
         Act.getCellInformation env.cell1.isSome,
         Act.createSocket true, Act.configSocket true,
         Act.connectSocket SERV_ADDR SERV_PORT SERV_PORT true,
         Act.socketSend d PACKET_SIZE true,
         Act.closeSocket true,
         Act.showSPL (env.db % 256) (env.dbmin % 256) (env.dbmax % 256),
         Act.delayMs 60000]
        (loopRun env buf).2 ∧
      lastAct (loopRun env buf).2 = some (Act.delayMs 60000) := by
  obtain ⟨db, dbmin, dbmax, c1, c2, cr, cf, cn, sd, cl⟩ := env
  subst hcr hcf hcn hsd hcl
  cases c1 with
  | none =>
    cases c2 with
    | none =>
      refine ⟨bufList (packSensor buf (db % 256) (dbmin % 256) (dbmax % 256)), ?_, rfl⟩
      simp only [loopRun, cellQueryStep, socketConnect,
                 Option.isSome_some, Option.isSome_none,
                 Bool.not_true, Bool.not_false,
                 List.append_assoc, List.cons_append, List.nil_append,
                 if_true, if_false, Bool.false_eq_true, Bool.true_eq_false,
                 ite_false, ite_true]
      repeat
        first
          | exact List.Sublist.refl _
          | exact List.nil_sublist _
          | apply List.Sublist.cons₂
          | apply List.Sublist.cons
    | some c2i =>
      refine ⟨bufList (packSensor buf (db % 256) (dbmin % 256) (dbmax % 256)), ?_, rfl⟩
      simp only [loopRun, cellQueryStep, socketConnect,
                 Option.isSome_some, Option.isSome_none,
                 Bool.not_true, Bool.not_false,
                 List.append_assoc, List.cons_append, List.nil_append,
                 if_true, if_false, Bool.false_eq_true, Bool.true_eq_false,
                 ite_false, ite_true]
      repeat
        first
          | exact List.Sublist.refl _
          | exact List.nil_sublist _
          | apply List.Sublist.cons₂
          | apply List.Sublist.cons
  | some c1i =>
    cases c2 with
    | none =>
      refine ⟨bufList (packCellInfo
        (packSensor buf (db % 256) (dbmin % 256) (dbmax % 256)) c1i), ?_, rfl⟩
      simp only [loopRun, cellQueryStep, socketConnect,
                 Option.isSome_some, Option.isSome_none,
                 Bool.not_true, Bool.not_false,
                 List.append_assoc, List.cons_append, List.nil_append,
                 if_true, if_false, Bool.false_eq_true, Bool.true_eq_false,
                 ite_false, ite_true]
      repeat
        first
          | exact List.Sublist.refl _
          | exact List.nil_sublist _
          | apply List.Sublist.cons₂
          | apply List.Sublist.cons
    | some c2i =>
      refine ⟨bufList (packCellInfo
        (packSensor buf (db % 256) (dbmin % 256) (dbmax % 256)) c1i), ?_, rfl⟩
      simp only [loopRun, cellQueryStep, socketConnect,
                 Option.isSome_some, Option.isSome_none,
                 Bool.not_true, Bool.not_false,
                 List.append_assoc, List.cons_append, List.nil_append,
                 if_true, if_false, Bool.false_eq_true, Bool.true_eq_false,
                 ite_false, ite_true]
      repeat
        first
          | exact List.Sublist.refl _
          | exact List.nil_sublist _
          | apply List.Sublist.cons₂
          | apply List.Sublist.cons

/-- Witness environment for C4: all modem operations succeed, both
cell queries fail. -/
def envW4 : LoopEnv :=
  { db := 70, dbmin := 60, dbmax := 90, cell1 := none, cell2 := none,
    createOk := true, configOk := true, connectOk := true,
    sendOk := true, closeOk := true }

/-- Witness for C4 at a concrete successful iteration. -/
theorem loop_iteration_order_witness :
    ∃ d : List Nat,
      List.Sublist
        [Act.dbReadDecibel (envW4.db % 256), Act.dbReadMin (envW4.dbmin % 256),
         Act.dbReadMax (envW4.dbmax % 256),
         Act.getCellInformation envW4.cell1.isSome,
         Act.createSocket true, Act.configSocket true,
         Act.connectSocket SERV_ADDR SERV_PORT SERV_PORT true,
         Act.socketSend d PACKET_SIZE true,
         Act.closeSocket true,
         Act.showSPL (envW4.db % 256) (envW4.dbmin % 256) (envW4.dbmax % 256),
         Act.delayMs 60000]
        (loopRun envW4 (fun _ => 0)).2 ∧
      lastAct (loopRun envW4 (fun _ => 0)).2 = some (Act.delayMs 60000) :=
  loop_iteration_order envW4 (fun _ => 0) rfl rfl rfl rfl rfl

/-- The polling loop never restarts the device. -/
theorem restart_notin_pollTrace (n : Nat) : Act.restart ∉ pollTrace n := by
  induction n with
  | zero => simp [pollTrace]
  | succ n ih => simp [pollTrace, ih]

/-- The screen initialization loop never restarts the device. -/
theorem restart_notin_screenTrace (n : Nat) : Act.restart ∉ screenTrace n := by
  induction n with
  | zero => simp [screenTrace]
  | succ n ih => simp [screenTrace, ih]

/-- The RAT query block never restarts the device, whatever its
outcome. -/
theorem restart_notin_ratTrace (o : Option Nat) : Act.restart ∉ ratTrace o := by
  cases o with
  | none => simp [ratTrace]
  | some r => by_cases h : r ≠ RADIO_TECHNOLOGY <;> simp [ratTrace, h]

/-- A cell query never restarts the device, whatever its outcome. -/
theorem restart_notin_cellQueryStep (c : Option CellInfo) (b : Buf) :
    Act.restart ∉ (cellQueryStep c b).2 := by
  cases c <;> simp [cellQueryStep]

/-- The trace ends with delay(1000) followed immediately by
ESP.restart(). -/
def restartEnd (tr : List Act) : Prop :=
  tr.reverse.head? = some Act.restart ∧
  tr.reverse.tail.head? = some (Act.delayMs 1000)

/-- C1 counterexample: a loop iteration in which the cell-information
query reports failure performs no restart at all — the failure is
merely logged and execution continues, refuting the claim that every
failing operation leads to a delay and a device restart. -/
theorem cell_query_failure_no_restart :
    Act.getCellInformation false ∈
      (loopRun { db := 70, dbmin := 60, dbmax := 90, cell1 := none, cell2 := none,
                 createOk := true, configOk := true, connectOk := true,
                 sendOk := true, closeOk := true } (fun _ => 0)).2 ∧
    Act.restart ∉
      (loopRun { db := 70, dbmin := 60, dbmax := 90, cell1 := none, cell2 := none,
                 createOk := true, configOk := true, connectOk := true,
                 sendOk := true, closeOk := true } (fun _ => 0)).2 := by
  decide

/-- C1 as amended: failures of modem init, PDP context creation and LTE
attach in setup, and of socket create, configure, connect, packet send
and socket close in the loop, each end the run with a fixed delay(1000)
followed immediately by a device restart; but a RAT-query failure and a
cell-information-query failure are merely logged and skipped, and a
display-init failure is retried in place with a one-second delay, so
none of those three ever restarts the device. -/
theorem failure_restart_policy (senv : SetupEnv) (env : LoopEnv) (sbuf buf : Buf) :
    (senv.modemBeginOk = false → restartEnd (setupRun senv sbuf).2) ∧
    (senv.modemBeginOk = true → senv.pdpOk = false →
      restartEnd (setupRun senv sbuf).2) ∧
    (senv.modemBeginOk = true → senv.pdpOk = true →
      (senv.opStateOk = false ∨ senv.selModeOk = false) →
      restartEnd (setupRun senv sbuf).2) ∧
    (senv.modemBeginOk = true → senv.pdpOk = true → senv.opStateOk = true →
      senv.selModeOk = true → Act.restart ∉ (setupRun senv sbuf).2) ∧
    (senv.modemBeginOk = true → senv.ratResult = none →
      Act.serialPrint "Could not retrieve radio access technology" ∈
        (setupRun senv sbuf).2) ∧
    (env.createOk = false → restartEnd (loopRun env buf).2) ∧
    (env.createOk = true → env.configOk = false →
      restartEnd (loopRun env buf).2) ∧
    (env.createOk = true → env.configOk = true → env.connectOk = false →
      restartEnd (loopRun env buf).2) ∧
    (env.createOk = true → env.configOk = true → env.connectOk = true →
      env.sendOk = false → restartEnd (loopRun env buf).2) ∧
    (env.createOk = true → env.configOk = true → env.connectOk = true →
      env.sendOk = true → env.closeOk = false →
      restartEnd (loopRun env buf).2) ∧
    (env.createOk = true → env.configOk = true → env.connectOk = true →
      env.sendOk = true → env.closeOk = true →
      Act.restart ∉ (loopRun env buf).2) ∧
    (env.cell1 = none →
      Act.serialPrint "Could not request cell information" ∈
        (loopRun env buf).2) := by
  obtain ⟨sf, ver, mac, mb, rat, pdp, ops, sel, rp⟩ := senv
  obtain ⟨db, dbmin, dbmax, c1, c2, cr, cf, cn, sd, cl⟩ := env
  refine ⟨?_, ?_, ?_, ?_, ?_, ?_, ?_, ?_, ?_, ?_, ?_, ?_⟩
  · intro h1
    subst h1
    simp [restartEnd, setupRun, List.reverse_append]
  · intro h1 h2
    subst h1 h2
    simp [restartEnd, setupRun, List.reverse_append]
  · intro h1 h2 h3
    subst h1 h2
    rcases h3 with h3 | h3
    · subst h3
      cases sel <;> simp [restartEnd, setupRun, lteConnect, List.reverse_append]
    · subst h3
      cases ops <;> simp [restartEnd, setupRun, lteConnect, List.reverse_append]
  · intro h1 h2 h3 h4
    subst h1 h2 h3 h4
    simp [setupRun, lteConnect, restart_notin_screenTrace,
          restart_notin_ratTrace, restart_notin_pollTrace]
  · intro h1 h2
    subst h1 h2
    cases pdp <;> cases ops <;> cases sel <;>
      simp [setupRun, lteConnect, ratTrace]
  · intro h1
    subst h1
    simp [restartEnd, loopRun, socketConnect, List.reverse_append]
  · intro h1 h2
    subst h1 h2
    simp [restartEnd, loopRun, socketConnect, List.reverse_append]
  · intro h1 h2 h3
    subst h1 h2 h3
    simp [restartEnd, loopRun, socketConnect, List.reverse_append]
  · intro h1 h2 h3 h4
    subst h1 h2 h3 h4
    simp [restartEnd, loopRun, socketConnect, List.reverse_append]
  · intro h1 h2 h3 h4 h5
    subst h1 h2 h3 h4 h5
    simp [restartEnd, loopRun, socketConnect, cellQueryStep, List.reverse_append]
  · intro h1 h2 h3 h4 h5
    subst h1 h2 h3 h4 h5
    simp [loopRun, socketConnect, restart_notin_cellQueryStep]
  · intro h1
    subst h1
    cases cr <;> cases cf <;> cases cn <;> cases sd <;> cases cl <;>
      simp [loopRun, socketConnect, cellQueryStep]

/-- Witness setup environment for the amended C1: modem init fails. -/
def senvW : SetupEnv :=
  { screenFailures := 1, version := 2, mac := fun _ => 0, modemBeginOk := false,
    ratResult := none, pdpOk := true, opStateOk := true, selModeOk := true,
    regPolls := 1 }

/-- Witness loop environment for the amended C1: createSocket fails. -/
def envW1 : LoopEnv :=
  { db := 0, dbmin := 0, dbmax := 0, cell1 := none, cell2 := none,
    createOk := false, configOk := true, connectOk := true,
    sendOk := true, closeOk := true }

/-- Witness for the amended C1: a failed modem init ends setup in
delay-then-restart, and a failed createSocket ends the loop iteration
in delay-then-restart. -/
theorem failure_restart_policy_witness :
    restartEnd (setupRun senvW (fun _ => 0)).2 ∧
    restartEnd (loopRun envW1 (fun _ => 0)).2 :=
  ⟨(failure_restart_policy senvW envW1 (fun _ => 0) (fun _ => 0)).1 rfl,
   (failure_restart_policy senvW envW1 (fun _ => 0) (fun _ => 0)).2.2.2.2.2.1 rfl⟩

/-- Witness cell information for C8. -/
def ciW : CellInfo :=
  { band := 20, netName := "A1", cc := 206, nc := 10, tac := 513,
    cid := 16909060, rsrp := -80, rsrq := -10 }

/-- Witness loop environment for C8: everything succeeds, the second
cell query returns ciW. -/
def envW8 : LoopEnv :=
  { db := 70, dbmin := 60, dbmax := 90, cell1 := none, cell2 := some ciW,
    createOk := true, configOk := true, connectOk := true,
    sendOk := true, closeOk := true }

/-- Witness for C8 at a concrete completed iteration. -/
theorem packet_field_layout_witness :
    ((loopRun envW8 (fun _ => 0)).1) 6 = envW8.db ∧
    ((loopRun envW8 (fun _ => 0)).1) 7 = envW8.dbmin ∧
    ((loopRun envW8 (fun _ => 0)).1) 8 = envW8.dbmax ∧
    ((loopRun envW8 (fun _ => 0)).1) 9 * 256 + ((loopRun envW8 (fun _ => 0)).1) 10 = ciW.cc ∧
    ((loopRun envW8 (fun _ => 0)).1) 11 * 256 + ((loopRun envW8 (fun _ => 0)).1) 12 = ciW.nc ∧
    ((loopRun envW8 (fun _ => 0)).1) 13 * 256 + ((loopRun envW8 (fun _ => 0)).1) 14 = ciW.tac ∧
    ((loopRun envW8 (fun _ => 0)).1) 15 * 16777216 + ((loopRun envW8 (fun _ => 0)).1) 16 * 65536 +
      ((loopRun envW8 (fun _ => 0)).1) 17 * 256 + ((loopRun envW8 (fun _ => 0)).1) 18 = ciW.cid ∧
    ((loopRun envW8 (fun _ => 0)).1) 19 = (⌊ciW.rsrp * -1⌋).toNat :=
  packet_field_layout envW8 (fun _ => 0) ciW rfl rfl rfl rfl (Or.inl rfl)
    (by decide) (by decide) (by decide) (by decide) (by decide) (by decide)
    (by decide) (by norm_num [ciW]) (by norm_num [ciW])

end SplMeter
